import Mathlib

/-!
Verification of the `User` account model of the usersmagic landing page
backend (`src/models/user/User.js`) against its natural-language
specification.

The model statics (`findUser`, `createUser`, `completeUser`, `updateUser`)
are shallowly embedded as pure Lean functions over an explicit database
state.  Dynamic JavaScript payload values are modelled by the flat value
type `JsValue` (the payloads the statics inspect only ever distinguish
primitives: truthiness, `typeof x == "string"` and `parseInt` behaviour
are preserved).  External collaborators (the `validator` library, the
country service, password hashing and verification, and the possibility
of a persistence failure) are parameters collected in `Env`.

Callback semantics: each static resolves through a single node-style
callback.  The embedding returns the FIRST invocation of that callback
together with the post-state of the database.  The one place the source
can invoke its callback twice (the missing `return` on line 156 of
`User.js`, inside the gender-normalization branch of `findUser`) is
noted at the corresponding point of the embedding; the first invocation
there carries the error tag, which is what the theorems below are about.
-/

namespace UsersMagic

/-- A flat JavaScript primitive value, as inspected by the `User` model
statics: enough to model truthiness, the `typeof v == "string"` tests,
`toString()` and `parseInt`. -/
inductive JsValue where
  | jundefined : JsValue
  | jnull : JsValue
  | jbool : Bool → JsValue
  | jnum : Int → JsValue
  | jstr : String → JsValue
deriving DecidableEq, Repr

/-- JavaScript truthiness of a `JsValue` (`undefined`, `null`, `false`,
`0` and the empty string are falsy). -/
def JsValue.truthy : JsValue → Bool
  | .jundefined => false
  | .jnull => false
  | .jbool b => b
  | .jnum n => n != 0
  | .jstr s => s != ""

/-- JavaScript `v.toString()` on a primitive value (on `null` and
`undefined` the sources only call it behind a truthiness guard, so the
returned strings for those two cases are never reached). -/
def JsValue.toJsString : JsValue → String
  | .jundefined => "undefined"
  | .jnull => "null"
  | .jbool b => if b then "true" else "false"
  | .jnum n => toString n
  | .jstr s => s

/-- Whether `typeof v == "string"` holds. -/
def JsValue.isStr : JsValue → Bool
  | .jstr _ => true
  | _ => false

/-- The digit prefix of a character list. -/
def leadingDigits (cs : List Char) : List Char :=
  cs.takeWhile (fun c => c.isDigit)

/-- Numeric value of a list of decimal digits. -/
def digitsVal (ds : List Char) : Nat :=
  ds.foldl (fun a c => a * 10 + (c.toNat - 48)) 0

/-- JavaScript `parseInt` on a string: skip leading whitespace, read an
optional sign and then a decimal digit prefix; `none` models `NaN`. -/
def parseIntOfString (s : String) : Option Int :=
  let cs := s.data.dropWhile (fun c => c.isWhitespace)
  match cs with
  | '-' :: rest =>
      if (leadingDigits rest).isEmpty then none
      else some (-(digitsVal (leadingDigits rest) : Int))
  | '+' :: rest =>
      if (leadingDigits rest).isEmpty then none
      else some ((digitsVal (leadingDigits rest) : Int))
  | _ =>
      if (leadingDigits cs).isEmpty then none
      else some ((digitsVal (leadingDigits cs) : Int))

/-- JavaScript `parseInt` on a primitive value; `none` models `NaN`
(`parseInt` of a boolean, `null` or `undefined` stringifies to a
non-numeric literal). -/
def jsParseInt : JsValue → Option Int
  | .jnum n => some n
  | .jstr s => parseIntOfString s
  | _ => none

/-- JavaScript `s.trim()`: strip leading and trailing whitespace. -/
def jsTrim (s : String) : String :=
  let cs := s.data.dropWhile (fun c => c.isWhitespace)
  ⟨(cs.reverse.dropWhile (fun c => c.isWhitespace)).reverse⟩

/-- JavaScript `s.split(" ").join("")`: remove every space character. -/
def stripSpaces (s : String) : String :=
  ⟨s.data.filter (fun c => c != ' ')⟩

/-- One persisted `User` document (`UserSchema`, `User.js` lines 12-130),
with the schema defaults. -/
structure UserDoc where
  id : String
  email : String
  password : String
  agreement_approved : Bool := false
  completed : Bool := false
  country : Option String := none
  name : Option String := none
  phone : Option String := none
  gender : Option String := none
  birth_year : Option Int := none
  city : Option String := none
  town : Option String := none
  information : List (String × JsValue) := []
  paid_campaigns : List String := []
  campaigns : List String := []
  payment_number : Option String := none
  credit : Int := 0
  waiting_credit : Int := 0
  overall_credit : Int := 0
  invitor : Option String := none
  password_reset_code : Option String := none
  password_reset_last_date : Option Int := none
deriving DecidableEq, Repr

/-- The user collection together with the id the next inserted document
receives. -/
structure DB where
  users : List UserDoc
  nextId : Nat
deriving DecidableEq, Repr

/-- `User.findOne({ email: e })`. -/
def dbFindByEmail (db : DB) (e : String) : Option UserDoc :=
  db.users.find? (fun u => u.email == e)

/-- `User.findById(i)`. -/
def dbFindById (db : DB) (i : String) : Option UserDoc :=
  db.users.find? (fun u => u.id == i)

/-- The write half of `User.findByIdAndUpdate(i, {$set: ...})`: apply the
field update `f` to every document whose id is `i`. -/
def dbUpdateById (db : DB) (i : String) (f : UserDoc → UserDoc) : DB :=
  { db with users := db.users.map (fun u => if u.id == i then f u else u) }

/-- A country record as returned by the country service; `completeUser`
only reads its `alpha2_code` field. -/
structure CountryRec where
  alpha2_code : String
deriving DecidableEq, Repr

/-- The external collaborators of the `User` model: the `validator`
library predicates, the country service, password hashing and
verification, and oracles fixing whether the persistence layer fails on
the (single) save or update a call performs. -/
structure Env where
  isEmail : String → Bool
  isMobilePhone : String → Bool
  isMongoId : String → Bool
  getCountryWithAlpha2Code : JsValue → Option CountryRec
  validateCityAndTown : Option String → JsValue → JsValue → Bool
  hash : String → String
  verify : String → String → Bool
  saveErr : Option Nat
  updateErr : Bool

/-- The symbolic error tags of the model statics (spec section 7). -/
inductive CbErr where
  | bad_request
  | document_not_found
  | password_verification
  | email_validation
  | password_length
  | email_duplication
  | database_error
  | already_authenticated
  | phone_validation
deriving DecidableEq, Repr

/-- First callback invocation of a static that yields a user object on
success (`findUser`, `createUser`). -/
inductive UserResult where
  | uerr : CbErr → UserResult
  | uok : List (String × JsValue) → UserResult
deriving DecidableEq, Repr

/-- First callback invocation of a static that yields no value on
success (`completeUser`, `updateUser`). -/
inductive COut where
  | cerr : CbErr → COut
  | cok : COut
deriving DecidableEq, Repr

/-- Lift an optional string to the primitive stored in a JS object
field. -/
def optStr : Option String → JsValue
  | some s => .jstr s
  | none => .jnull

/-- Lift an optional integer likewise. -/
def optInt : Option Int → JsValue
  | some n => .jnum n
  | none => .jnull

/-- Modelled from the spec: the sanitizer `getUser`
(`src/models/user/functions/getUser`, whose source is not in the
repository snapshot).  Spec sections 2 and 6: it strips sensitive fields
before returning a user object, removing the password hash, the reset
code fields and internal bookkeeping. -/
def getUser (u : UserDoc) : List (String × JsValue) :=
  [("_id", .jstr u.id),
   ("email", .jstr u.email),
   ("agreement_approved", .jbool u.agreement_approved),
   ("completed", .jbool u.completed),
   ("country", optStr u.country),
   ("name", optStr u.name),
   ("phone", optStr u.phone),
   ("gender", optStr u.gender),
   ("birth_year", optInt u.birth_year),
   ("city", optStr u.city),
   ("town", optStr u.town),
   ("credit", .jnum u.credit)]

/-- The condition of `User.js` line 152:
`user.gender && (user.gender == "erkek" || user.gender == "kadın")`. -/
def legacyGender : Option String → Bool
  | some s => (s != "") && ((s == "erkek") || (s == "kadın"))
  | none => false

/-- `UserSchema.statics.findUser` (`User.js` lines 135-173).  Returns the
first callback invocation and the post-state.  On the normalization
update failure the source invokes the callback with "database_error" and
then, lacking a `return`, falls through into the sanitizer call; the
embedding returns that first, error invocation. -/
def findUser (env : Env) (db : DB) (email password : String) :
    UserResult × DB :=
  if email == "" || password == "" || !env.isEmail email then
    (.uerr .bad_request, db)
  else
    match dbFindByEmail db (jsTrim email) with
    | none => (.uerr .document_not_found, db)
    | some user =>
      if !env.verify (jsTrim password) user.password then
        (.uerr .password_verification, db)
      else
        if legacyGender user.gender then
          if env.updateErr then
            (.uerr .database_error, db)
          else
            let g := if user.gender == some "erkek" then "male" else "female"
            let db' := dbUpdateById db user.id
              (fun u => { u with gender := some g })
            (.uok (getUser { user with gender := some g }), db')
        else
          (.uok (getUser user), db)

/-- The `data` payload of `createUser`, an object with the fields the
static reads (a missing field reads as `undefined`). -/
structure CreateData where
  email : JsValue := .jundefined
  password : JsValue := .jundefined
  code : JsValue := .jundefined
deriving DecidableEq, Repr

/-- The `data` argument of `createUser`: either an object or some
primitive (`typeof data != "object"`, or falsy). -/
inductive CreateArg where
  | obj : CreateData → CreateArg
  | nonObj : JsValue → CreateArg
deriving DecidableEq, Repr

/-- The document built by `createUser` (`newUserData`, `User.js` lines
205-212) completed with the schema defaults; the pre-save hook
(`User.js` line 133) hashes the password at the persistence boundary. -/
def newUserDoc (env : Env) (db : DB) (e p : String) (code : JsValue) :
    UserDoc :=
  { id := toString db.nextId,
    email := e,
    password := env.hash p,
    invitor :=
      if code.truthy && env.isMongoId code.toJsString then
        some code.toJsString
      else none,
    agreement_approved := true }

/-- `UserSchema.statics.createUser` (`User.js` lines 191-226).  The save
fails with the duplicate-key code 11000 when a document with the same
email already exists (the schema declares `email` unique); any other
persistence failure is the oracle `env.saveErr`. -/
def createUser (env : Env) (db : DB) (arg : CreateArg) : UserResult × DB :=
  match arg with
  | .nonObj _ => (.uerr .bad_request, db)
  | .obj d =>
    match d.email, d.password with
    | .jstr e, .jstr p =>
      if e == "" || p == "" then (.uerr .bad_request, db)
      else if !env.isEmail e then (.uerr .email_validation, db)
      else if p.length < 6 then (.uerr .password_length, db)
      else
        let nd := newUserDoc env db e p d.code
        if db.users.any (fun u => u.email == e) then
          (.uerr .email_duplication, db)
        else
          match env.saveErr with
          | some c =>
            if c == 11000 then (.uerr .email_duplication, db)
            else (.uerr .database_error, db)
          | none =>
            (.uok (getUser nd),
             { users := db.users ++ [nd], nextId := db.nextId + 1 })
    | _, _ => (.uerr .bad_request, db)

/-- The `data` payload of `completeUser`, an object with the fields the
static reads. -/
structure CompleteData where
  name : JsValue := .jundefined
  phone : JsValue := .jundefined
  gender : JsValue := .jundefined
  birth_year : JsValue := .jundefined
  country : JsValue := .jundefined
deriving DecidableEq, Repr

/-- The `data` argument of `completeUser`: an object or a primitive. -/
inductive CompleteArg where
  | obj : CompleteData → CompleteArg
  | nonObj : JsValue → CompleteArg
deriving DecidableEq, Repr

/-- `allowedGenderValues` (`User.js` line 232).  `includes` uses strict
equality, so only a string payload value can match. -/
def allowedGenderValues : List String :=
  ["male", "female", "other", "not_specified"]

/-- The test `data.gender && allowedGenderValues.includes(data.gender)`
(`User.js` line 245). -/
def genderAllowed : JsValue → Bool
  | .jstr s => allowedGenderValues.contains s
  | _ => false

/-- `UserSchema.statics.completeUser` (`User.js` lines 228-278).  The
outer `none` models the uncaught `TypeError` thrown by
`data.phone.split(" ")` when `data.phone` is truthy but not a string
(`User.js` line 240); the callback is never invoked in that case.
Inside the sequential embedding the re-lookup performed by
`findByIdAndUpdate` cannot miss the document found two lines earlier, so
its "document_not_found" arm is not represented; its error arm is the
oracle `env.updateErr`. -/
def completeUser (env : Env) (db : DB) (id : JsValue) (arg : CompleteArg) :
    Option (COut × DB) :=
  match arg with
  | .nonObj _ => some (.cerr .bad_request, db)
  | .obj d =>
    if !id.truthy || !env.isMongoId id.toJsString then
      some (.cerr .bad_request, db)
    else
      match d.name with
      | .jstr nm =>
        if nm == "" then some (.cerr .bad_request, db)
        else
          if d.phone.truthy then
            match d.phone with
            | .jstr ph =>
              let ph := stripSpaces ph
              if ph == "" || !env.isMobilePhone ph then
                some (.cerr .phone_validation, db)
              else
                if !d.gender.truthy || !genderAllowed d.gender then
                  some (.cerr .bad_request, db)
                else
                  if !d.birth_year.truthy then some (.cerr .bad_request, db)
                  else
                    match jsParseInt d.birth_year with
                    | none => some (.cerr .bad_request, db)
                    | some yr =>
                      if yr < 1920 || yr > 2020 then
                        some (.cerr .bad_request, db)
                      else
                        match env.getCountryWithAlpha2Code d.country with
                        | none => some (.cerr .bad_request, db)
                        | some country =>
                          match dbFindById db id.toJsString with
                          | none => some (.cerr .document_not_found, db)
                          | some user =>
                            if user.completed then
                              some (.cerr .already_authenticated, db)
                            else
                              if env.updateErr then
                                some (.cerr .database_error, db)
                              else
                                some (.cok,
                                  dbUpdateById db id.toJsString (fun u =>
                                    { u with
                                      name := some nm,
                                      country := some country.alpha2_code,
                                      phone := some ph,
                                      gender := some d.gender.toJsString,
                                      birth_year := some yr,
                                      completed := true }))
            | _ => none
          else some (.cerr .phone_validation, db)
      | _ => some (.cerr .bad_request, db)

/-- The fields of the `data` argument that `updateUser` reads when
`data` is an object. -/
structure UpdateData where
  name : JsValue := .jundefined
  phone : JsValue := .jundefined
  city : JsValue := .jundefined
  town : JsValue := .jundefined
deriving DecidableEq, Repr

/-- The `data` argument of `updateUser`: a string (the only shape its
type guard admits), an object, or some other primitive. -/
inductive UpdateArg where
  | ustr : String → UpdateArg
  | uobj : UpdateData → UpdateArg
  | uother : JsValue → UpdateArg
deriving DecidableEq, Repr

/-- JavaScript truthiness of the whole `data` argument. -/
def UpdateArg.truthy : UpdateArg → Bool
  | .ustr s => s != ""
  | .uobj _ => true
  | .uother v => v.truthy

/-- Whether `typeof data == "string"` holds for the `data` argument. -/
def UpdateArg.isStr : UpdateArg → Bool
  | .ustr _ => true
  | _ => false

/-- Property read `data.name` (a string has none of these properties, so
the read yields `undefined` on a string argument). -/
def UpdateArg.getName : UpdateArg → JsValue
  | .uobj d => d.name
  | _ => .jundefined

/-- Property read `data.phone`. -/
def UpdateArg.getPhone : UpdateArg → JsValue
  | .uobj d => d.phone
  | _ => .jundefined

/-- Property read `data.city`. -/
def UpdateArg.getCity : UpdateArg → JsValue
  | .uobj d => d.city
  | _ => .jundefined

/-- Property read `data.town`. -/
def UpdateArg.getTown : UpdateArg → JsValue
  | .uobj d => d.town
  | _ => .jundefined

/-- The fallback `data.name && typeof data.name == "string" ? data.name
: user.name` (`User.js` lines 297 and 309). -/
def nameOrKeep (v : JsValue) (old : Option String) : Option String :=
  match v with
  | .jstr s => if s != "" then some s else old
  | _ => old

/-- The fallback `data.phone && validator.isMobilePhone(
data.phone.toString()) ? data.phone : user.phone` (`User.js` lines 298
and 310). -/
def phoneOrKeep (env : Env) (v : JsValue) (old : Option String) :
    Option String :=
  if v.truthy && env.isMobilePhone v.toJsString then some v.toJsString
  else old

/-- `UserSchema.statics.updateUser` (`User.js` lines 280-318).  The type
guard on line 284 demands `typeof data == "string"`, so after it only a
string argument remains; property reads on it yield `undefined` and the
city/town branch (kept here to mirror the source) is unreachable. -/
def updateUser (env : Env) (db : DB) (id : JsValue) (arg : UpdateArg) :
    COut × DB :=
  if !id.truthy || !env.isMongoId id.toJsString
      || !arg.truthy || !arg.isStr then
    (.cerr .bad_request, db)
  else
    match dbFindById db id.toJsString with
    | none => (.cerr .document_not_found, db)
    | some user =>
      if (arg.getCity).truthy && (arg.getTown).truthy then
        if !env.validateCityAndTown user.country arg.getCity arg.getTown then
          (.cerr .bad_request, db)
        else if env.updateErr then (.cerr .database_error, db)
        else
          (.cok, dbUpdateById db id.toJsString (fun u =>
            { u with
              name := nameOrKeep arg.getName user.name,
              phone := phoneOrKeep env arg.getPhone user.phone,
              city := some (arg.getCity).toJsString,
              town := some (arg.getTown).toJsString }))
      else
        if env.updateErr then (.cerr .database_error, db)
        else
          (.cok, dbUpdateById db id.toJsString (fun u =>
            { u with
              name := nameOrKeep arg.getName user.name,
              phone := phoneOrKeep env arg.getPhone user.phone }))

/-- Written from the words of spec section 4.4 (refinement reference for
the validation order): "Validation order (first failure wins, no
aggregation of multiple errors): 1. identifier well-formed, payload is
an object, else bad_request; 2. name present and a string, else
bad_request; 3. phone: whitespace stripped, then validated as a mobile
number, else phone_validation; 4. gender in the four allowed values,
else bad_request; 5. birth_year parses as an integer in [1920, 2020],
else bad_request; 6. country resolves via the country service, else
bad_request; 7. account must exist, else document_not_found; 8. account
must not already be completed, else already_authenticated.  On success:
atomically sets all profile fields and completed = true; any persistence
failure after validation: database_error." -/
def completeUserSpecOrder (env : Env) (db : DB) (id : JsValue)
    (arg : CompleteArg) : COut × DB :=
  match arg with
  | .nonObj _ => (.cerr .bad_request, db)
  | .obj d =>
    if !id.truthy || !env.isMongoId id.toJsString then
      (.cerr .bad_request, db)
    else
      match d.name with
      | .jstr nm =>
        if nm == "" then (.cerr .bad_request, db)
        else
          let phone : Option String :=
            if d.phone.truthy then
              match d.phone with
              | .jstr ph => some (stripSpaces ph)
              | v => some (stripSpaces v.toJsString)
            else none
          match phone with
          | none => (.cerr .phone_validation, db)
          | some ph =>
            if ph == "" || !env.isMobilePhone ph then
              (.cerr .phone_validation, db)
            else
              if !d.gender.truthy || !genderAllowed d.gender then
                (.cerr .bad_request, db)
              else
                if !d.birth_year.truthy then (.cerr .bad_request, db)
                else
                  match jsParseInt d.birth_year with
                  | none => (.cerr .bad_request, db)
                  | some yr =>
                    if yr < 1920 || yr > 2020 then
                      (.cerr .bad_request, db)
                    else
                      match env.getCountryWithAlpha2Code d.country with
                      | none => (.cerr .bad_request, db)
                      | some country =>
                        match dbFindById db id.toJsString with
                        | none => (.cerr .document_not_found, db)
                        | some user =>
                          if user.completed then
                            (.cerr .already_authenticated, db)
                          else
                            if env.updateErr then
                              (.cerr .database_error, db)
                            else
                              (.cok,
                                dbUpdateById db id.toJsString (fun u =>
                                  { u with
                                    name := some nm,
                                    country := some country.alpha2_code,
                                    phone := some ph,
                                    gender := some d.gender.toJsString,
                                    birth_year := some yr,
                                    completed := true }))
      | _ => (.cerr .bad_request, db)

/-- A concrete environment for the witness instances: permissive
validators, a resolvable country, an injective hash, sound and complete
verification, and a healthy persistence layer. -/
def envT : Env :=
  { isEmail := fun s => s == "a@b.com",
    isMobilePhone := fun s => s == "5551234567",
    isMongoId := fun _ => true,
    getCountryWithAlpha2Code := fun _ => some ⟨"US"⟩,
    validateCityAndTown := fun _ _ _ => true,
    hash := fun s => "#" ++ s,
    verify := fun p h => h == "#" ++ p,
    saveErr := none,
    updateErr := false }

/-- The same environment with a failing persistence update. -/
def envE : Env :=
  { envT with updateErr := true }

/-- A stored account whose gender still carries the legacy value. -/
def uLegacy : UserDoc :=
  { id := "1", email := "a@b.com", password := "#secret",
    agreement_approved := true, gender := some "erkek" }

/-- A database holding only `uLegacy`. -/
def dbLegacy : DB :=
  { users := [uLegacy], nextId := 2 }

/-- A fresh, not yet completed account. -/
def uFresh : UserDoc :=
  { id := "1", email := "a@b.com", password := "#secret",
    agreement_approved := true }

/-- A database holding only `uFresh`. -/
def dbFresh : DB :=
  { users := [uFresh], nextId := 2 }

/-- An account that already completed its profile. -/
def uDone : UserDoc :=
  { id := "1", email := "a@b.com", password := "#secret",
    agreement_approved := true, completed := true,
    name := some "A", phone := some "5551234567",
    gender := some "male", birth_year := some 1995,
    country := some "US" }

/-- A database holding only `uDone`. -/
def dbDone : DB :=
  { users := [uDone], nextId := 2 }

/-! ## Helper lemmas -/

/-- A value that `parseInt` reads as a nonzero integer is truthy. -/
theorem jsParseInt_truthy (v : JsValue) (n : Int)
    (h : jsParseInt v = some n) (hn : n ≠ 0) : v.truthy = true := by
  cases v with
  | jnum m =>
    simp [jsParseInt] at h
    simp [JsValue.truthy, h ▸ hn]
  | jstr s =>
    by_cases hs : s = ""
    · subst hs
      simp [jsParseInt, parseIntOfString, leadingDigits] at h
    · simp [JsValue.truthy, hs]
  | jundefined => simp [jsParseInt] at h
  | jnull => simp [jsParseInt] at h
  | jbool b => simp [jsParseInt] at h

/-- Looking an email up in a collection extended by a fresh document
with that email finds the fresh document, provided no earlier document
carries the email. -/
theorem dbFindByEmail_append (l : List UserDoc) (k : Nat) (nd : UserDoc)
    (e : String) (hl : ∀ u ∈ l, u.email ≠ e) (he : nd.email = e) :
    dbFindByEmail ⟨l ++ [nd], k⟩ e = some nd := by
  induction l with
  | nil =>
    simp only [dbFindByEmail, List.nil_append]
    rw [List.find?_cons_of_pos _ (by simp [he])]
  | cons u rest ih =>
    have hu : (u.email == e) = false := by
      simp [hl u (List.mem_cons_self u rest)]
    have hrest : ∀ w ∈ rest, w.email ≠ e :=
      fun w hw => hl w (List.mem_cons_of_mem u hw)
    have ihr := ih hrest
    unfold dbFindByEmail at ihr ⊢
    simp only [List.cons_append]
    rw [List.find?_cons, hu]
    exact ihr

/-! ## Theorems for the claims -/

/-- C2, counterexample.  The claim says a failure of the legacy
gender-normalization update inside `findUser` is never propagated to the
caller and authentication still completes as a success.  On the concrete
database `dbLegacy` (stored gender "erkek", correct password) with a
failing update, the first callback invocation is the error
`database_error` and no success value is delivered: the source line
`if (err) callback('database_error');` does invoke the callback with the
error tag (and, missing a `return`, then falls through). -/
theorem findUser_normalization_failure_cex :
    findUser envE dbLegacy "a@b.com" "secret" =
      (.uerr .database_error, dbLegacy) := by
  decide

/-- C2, amended claim: whenever the stored gender is legacy, the
password verifies, and the normalization update fails, `findUser`
propagates the failure — its first callback invocation is the error
`database_error`, and authentication does not complete as a success. -/
theorem findUser_normalization_failure_propagates
    (env : Env) (db : DB) (email password : String) (u : UserDoc)
    (he : email ≠ "") (hp : password ≠ "")
    (hie : env.isEmail email = true)
    (hu : dbFindByEmail db (jsTrim email) = some u)
    (hv : env.verify (jsTrim password) u.password = true)
    (hg : legacyGender u.gender = true)
    (herr : env.updateErr = true) :
    findUser env db email password = (.uerr .database_error, db) := by
  simp [findUser, he, hp, hie, hu, hv, hg, herr]

/-- C2, witness for the amended claim at the concrete input of the
counterexample. -/
theorem findUser_normalization_failure_propagates_witness :
    findUser envE dbLegacy "a@b.com" "secret" =
      (.uerr .database_error, dbLegacy) :=
  findUser_normalization_failure_propagates envE dbLegacy
    "a@b.com" "secret" uLegacy (by decide) (by decide) (by decide)
    (by decide) (by decide) (by decide) (by decide)

/-- C3.  Evaluation of `updateUser` at the failing input of the claim:
a well-formed identifier of an existing account and an object payload
supplying `city` but not `town`.  The claim (and spec section 4.5)
expects the call to skip the joint city/town validation, update only the
name/phone fallback fields and return a null error; the code instead
rejects every object payload with `bad_request`, because the type guard
on `User.js` line 284 demands `typeof data == "string"` while the rest
of the function reads `data` as an object. -/
theorem updateUser_object_payload_bad_request :
    updateUser envT dbFresh (.jstr "1")
        (.uobj { city := .jstr "Ankara" }) =
      (.cerr .bad_request, dbFresh) := by
  decide

/-- C5: on every successful `findUser` call, a stored legacy gender
"erkek" (resp. "kadın") is rewritten in the database to "male" (resp.
"female"), a non-legacy stored gender leaves the database unchanged, and
the returned sanitized object has no password field. -/
theorem findUser_legacy_gender_normalization
    (env : Env) (db : DB) (email password : String) (u : UserDoc)
    (he : email ≠ "") (hp : password ≠ "")
    (hie : env.isEmail email = true)
    (hu : dbFindByEmail db (jsTrim email) = some u)
    (hv : env.verify (jsTrim password) u.password = true)
    (hok : env.updateErr = false) :
    (u.gender = some "erkek" →
      findUser env db email password =
        (.uok (getUser { u with gender := some "male" }),
         dbUpdateById db u.id (fun w => { w with gender := some "male" }))) ∧
    (u.gender = some "kadın" →
      findUser env db email password =
        (.uok (getUser { u with gender := some "female" }),
         dbUpdateById db u.id (fun w => { w with gender := some "female" }))) ∧
    (legacyGender u.gender = false →
      findUser env db email password = (.uok (getUser u), db)) ∧
    (∀ v : UserDoc, "password" ∉ (getUser v).map Prod.fst) := by
  refine ⟨fun hgen => ?_, fun hgen => ?_, fun hgen => ?_, fun v => ?_⟩
  · simp [findUser, he, hp, hie, hu, hv, hok, hgen, legacyGender]
  · simp [findUser, he, hp, hie, hu, hv, hok, hgen, legacyGender]
  · simp [findUser, he, hp, hie, hu, hv, hok, hgen]
  · simp [getUser]

/-- C5, witness: authenticating against `dbLegacy` rewrites the stored
gender to "male" and returns the sanitized object. -/
theorem findUser_legacy_gender_normalization_witness :
    findUser envT dbLegacy "a@b.com" "secret" =
      (.uok (getUser { uLegacy with gender := some "male" }),
       dbUpdateById dbLegacy uLegacy.id
         (fun w => { w with gender := some "male" })) :=
  (findUser_legacy_gender_normalization envT dbLegacy
    "a@b.com" "secret" uLegacy (by decide) (by decide) (by decide)
    (by decide) (by decide) (by decide)).1 (by decide)

/-- C1: `completeUser` is one-time.  For an otherwise valid identifier
and payload, when the stored document is already completed the call
returns `already_authenticated` and leaves the database unchanged; and
every call that succeeds started from a document with `completed =
false`, so only the first successful call can set the flag. -/
theorem completeUser_one_time
    (env : Env) (db : DB) (id : JsValue) (d : CompleteData)
    (nm ph g : String) (yr : Int) (c : CountryRec) (u : UserDoc)
    (hid : id.truthy = true) (him : env.isMongoId id.toJsString = true)
    (hn : d.name = .jstr nm) (hn0 : nm ≠ "")
    (hph : d.phone = .jstr ph) (hph0 : ph ≠ "")
    (hps : stripSpaces ph ≠ "")
    (hpm : env.isMobilePhone (stripSpaces ph) = true)
    (hg : d.gender = .jstr g) (hga : genderAllowed (.jstr g) = true)
    (hyr : jsParseInt d.birth_year = some yr)
    (hyr1 : 1920 ≤ yr) (hyr2 : yr ≤ 2020)
    (hc : env.getCountryWithAlpha2Code d.country = some c)
    (hu : dbFindById db id.toJsString = some u) :
    (u.completed = true →
      completeUser env db id (.obj d) =
        some (.cerr .already_authenticated, db)) ∧
    (∀ db2, completeUser env db id (.obj d) = some (.cok, db2) →
      u.completed = false) := by
  have hg0 : g ≠ "" := by
    simp only [genderAllowed, allowedGenderValues] at hga
    rcases (by simpa using hga : g = "male" ∨ g = "female" ∨ g = "other"
        ∨ g = "not_specified") with h | h | h | h <;> simp [h]
  have hyt : d.birth_year.truthy = true :=
    jsParseInt_truthy d.birth_year yr hyr (by omega)
  have hpt : (JsValue.jstr ph).truthy = true := by
    simp [JsValue.truthy, hph0]
  have hgtr : (JsValue.jstr g).truthy = true := by
    simp [JsValue.truthy, hg0]
  have hnr : ¬(yr < 1920) := by omega
  have hgt : ¬(yr > 2020) := by omega
  constructor
  · intro hcomp
    simp [completeUser, hid, him, hn, hn0, hph, hpt, hps, hpm, hg, hgtr,
      hga, hyt, hyr, hnr, hgt, hc, hu, hcomp]
  · intro db2 h
    by_cases hcomp : u.completed
    · simp [completeUser, hid, him, hn, hn0, hph, hpt, hps, hpm, hg, hgtr,
        hga, hyt, hyr, hnr, hgt, hc, hu, hcomp] at h
    · simpa using hcomp

/-- C1, witness: a second `completeUser` on the already completed
account of `dbDone`, with a fully valid payload, yields
`already_authenticated` and changes nothing. -/
theorem completeUser_one_time_witness :
    completeUser envT dbDone (.jstr "1")
        (.obj { name := .jstr "A", phone := .jstr "555 123 4567",
                gender := .jstr "male", birth_year := .jnum 1995,
                country := .jstr "US" }) =
      some (.cerr .already_authenticated, dbDone) :=
  (completeUser_one_time envT dbDone (.jstr "1")
    { name := .jstr "A", phone := .jstr "555 123 4567",
      gender := .jstr "male", birth_year := .jnum 1995,
      country := .jstr "US" }
    "A" "555 123 4567" "male" 1995 ⟨"US"⟩ uDone
    (by decide) (by decide) rfl (by decide) rfl (by decide) (by decide)
    (by decide) rfl (by decide) rfl (by decide) (by decide) rfl
    (by decide)).1 (by decide)

/-- C7: the birth-year window of `completeUser` is inclusive on both
ends.  With every other input valid, a birth year parsing to 1919 or
2021 yields `bad_request`, while one parsing to 1920 or 2020 passes the
check and the call succeeds, storing the parsed integer. -/
theorem completeUser_birth_year_boundary
    (env : Env) (db : DB) (id : JsValue) (d : CompleteData)
    (nm ph g : String) (c : CountryRec) (u : UserDoc)
    (hid : id.truthy = true) (him : env.isMongoId id.toJsString = true)
    (hn : d.name = .jstr nm) (hn0 : nm ≠ "")
    (hph : d.phone = .jstr ph) (hph0 : ph ≠ "")
    (hps : stripSpaces ph ≠ "")
    (hpm : env.isMobilePhone (stripSpaces ph) = true)
    (hg : d.gender = .jstr g) (hga : genderAllowed (.jstr g) = true)
    (hc : env.getCountryWithAlpha2Code d.country = some c)
    (hu : dbFindById db id.toJsString = some u)
    (hcomp : u.completed = false) (hok : env.updateErr = false) :
    (jsParseInt d.birth_year = some 1919 →
      completeUser env db id (.obj d) = some (.cerr .bad_request, db)) ∧
    (jsParseInt d.birth_year = some 2021 →
      completeUser env db id (.obj d) = some (.cerr .bad_request, db)) ∧
    (∀ yr : Int, yr = 1920 ∨ yr = 2020 →
      jsParseInt d.birth_year = some yr →
      completeUser env db id (.obj d) =
        some (.cok, dbUpdateById db id.toJsString (fun w =>
          { w with name := some nm, country := some c.alpha2_code,
                   phone := some (stripSpaces ph), gender := some g,
                   birth_year := some yr, completed := true }))) := by
  have hg0 : g ≠ "" := by
    simp only [genderAllowed, allowedGenderValues] at hga
    rcases (by simpa using hga : g = "male" ∨ g = "female" ∨ g = "other"
        ∨ g = "not_specified") with h | h | h | h <;> simp [h]
  have hpt : (JsValue.jstr ph).truthy = true := by
    simp [JsValue.truthy, hph0]
  have hgtr : (JsValue.jstr g).truthy = true := by
    simp [JsValue.truthy, hg0]
  refine ⟨fun hyr => ?_, fun hyr => ?_, fun yr hcase hyr => ?_⟩
  · have hyt : d.birth_year.truthy = true :=
      jsParseInt_truthy d.birth_year 1919 hyr (by omega)
    simp [completeUser, hid, him, hn, hn0, hph, hpt, hps, hpm, hg, hgtr,
      hga, hyt, hyr]
  · have hyt : d.birth_year.truthy = true :=
      jsParseInt_truthy d.birth_year 2021 hyr (by omega)
    simp [completeUser, hid, him, hn, hn0, hph, hpt, hps, hpm, hg, hgtr,
      hga, hyt, hyr]
  · have hyt : d.birth_year.truthy = true :=
      jsParseInt_truthy d.birth_year yr hyr
        (by rcases hcase with h | h <;> omega)
    have hnr : ¬(yr < 1920) := by rcases hcase with h | h <;> omega
    have hgt : ¬(yr > 2020) := by rcases hcase with h | h <;> omega
    have hgj : (JsValue.jstr g).toJsString = g := rfl
    simp [completeUser, hid, him, hn, hn0, hph, hpt, hps, hpm, hg, hgtr,
      hga, hyt, hyr, hnr, hgt, hc, hu, hcomp, hok, hgj]

/-- C7, witness: on the fresh account, birth year 1919 is rejected while
1920 completes the profile and stores 1920. -/
theorem completeUser_birth_year_boundary_witness :
    completeUser envT dbFresh (.jstr "1")
        (.obj { name := .jstr "A", phone := .jstr "555 123 4567",
                gender := .jstr "male", birth_year := .jnum 1919,
                country := .jstr "US" }) =
      some (.cerr .bad_request, dbFresh) ∧
    completeUser envT dbFresh (.jstr "1")
        (.obj { name := .jstr "A", phone := .jstr "555 123 4567",
                gender := .jstr "male", birth_year := .jnum 1920,
                country := .jstr "US" }) =
      some (.cok, dbUpdateById dbFresh "1" (fun w =>
        { w with name := some "A", country := some "US",
                 phone := some "5551234567", gender := some "male",
                 birth_year := some 1920, completed := true })) := by
  constructor
  · exact (completeUser_birth_year_boundary envT dbFresh (.jstr "1")
      { name := .jstr "A", phone := .jstr "555 123 4567",
        gender := .jstr "male", birth_year := .jnum 1919,
        country := .jstr "US" }
      "A" "555 123 4567" "male" ⟨"US"⟩ uFresh
      (by decide) (by decide) rfl (by decide) rfl (by decide) (by decide)
      (by decide) rfl (by decide) rfl (by decide) (by decide)
      (by decide)).1 rfl
  · have h := (completeUser_birth_year_boundary envT dbFresh (.jstr "1")
      { name := .jstr "A", phone := .jstr "555 123 4567",
        gender := .jstr "male", birth_year := .jnum 1920,
        country := .jstr "US" }
      "A" "555 123 4567" "male" ⟨"US"⟩ uFresh
      (by decide) (by decide) rfl (by decide) rfl (by decide) (by decide)
      (by decide) rfl (by decide) rfl (by decide) (by decide)
      (by decide)).2.2 1920 (Or.inl rfl) rfl
    simpa [stripSpaces] using h

/-- The empty user collection. -/
def dbEmpty : DB := { users := [], nextId := 1 }

/-- C4: with input passing the format and length checks, a duplicate
email always yields `email_duplication`; `database_error` arises only
from a persistence failure that is not the uniqueness violation (its
error code is not 11000) on a non-duplicate email. -/
theorem createUser_duplicate_email
    (env : Env) (db : DB) (e p : String) (cd : JsValue)
    (he0 : e ≠ "") (hp0 : p ≠ "")
    (hie : env.isEmail e = true) (hlen : ¬(p.length < 6)) :
    ((∃ u ∈ db.users, u.email = e) →
      createUser env db
          (.obj { email := .jstr e, password := .jstr p,
                  code := cd }) =
        (.uerr .email_duplication, db)) ∧
    (∀ db2, createUser env db
          (.obj { email := .jstr e, password := .jstr p,
                  code := cd }) =
        (.uerr .database_error, db2) →
      db2 = db ∧ (∀ u ∈ db.users, u.email ≠ e) ∧
        ∃ c, env.saveErr = some c ∧ c ≠ 11000) := by
  constructor
  · rintro ⟨u, hu, hue⟩
    have hany : (db.users.any fun w => w.email == e) = true :=
      List.any_eq_true.mpr ⟨u, hu, by simp [hue]⟩
    simp [createUser, he0, hp0, hie, hlen, hany]
  · intro db2 h
    by_cases hany : (db.users.any fun w => w.email == e) = true
    · simp [createUser, he0, hp0, hie, hlen, hany] at h
    · have hnd : ∀ u ∈ db.users, u.email ≠ e := by
        intro u hu hue
        exact hany (List.any_eq_true.mpr ⟨u, hu, by simp [hue]⟩)
      cases hsv : env.saveErr with
      | none =>
        simp [createUser, he0, hp0, hie, hlen, hany, hsv] at h
      | some c =>
        by_cases hc : (c == 11000) = true
        · simp [createUser, he0, hp0, hie, hlen, hany, hsv, hc] at h
        · have hdb : db2 = db := by
            simp [createUser, he0, hp0, hie, hlen, hany, hsv, hc] at h
            exact h.symm
          exact ⟨hdb, hnd, c, rfl, by simpa using hc⟩

/-- C4, witness: creating a second account with the email already stored
in `dbFresh` yields `email_duplication`. -/
theorem createUser_duplicate_email_witness :
    createUser envT dbFresh
        (.obj { email := .jstr "a@b.com",
                password := .jstr "secret", code := .jundefined }) =
      (.uerr .email_duplication, dbFresh) :=
  (createUser_duplicate_email envT dbFresh "a@b.com" "secret" .jundefined
    (by decide) (by decide) (by decide) (by decide)).1
    ⟨uFresh, by decide, by decide⟩

/-- C8: every account `createUser` creates has `agreement_approved =
true`, `completed = false` and stores only the hash of the password; a
well-formed email with a password of length at least 6 (on a
duplicate-free database with a healthy persistence layer) does create
such an account, while password length 5 yields `password_length` and
leaves the database unchanged. -/
theorem createUser_password_boundary
    (env : Env) (db : DB) (e p : String)
    (he0 : e ≠ "") (hie : env.isEmail e = true) :
    (∀ r db2, createUser env db
          (.obj { email := .jstr e, password := .jstr p }) =
        (.uok r, db2) →
      db2 = { users := db.users ++ [newUserDoc env db e p .jundefined],
              nextId := db.nextId + 1 } ∧
      r = getUser (newUserDoc env db e p .jundefined) ∧
      (newUserDoc env db e p .jundefined).agreement_approved = true ∧
      (newUserDoc env db e p .jundefined).completed = false ∧
      (newUserDoc env db e p .jundefined).password = env.hash p) ∧
    (p.length = 5 →
      createUser env db
          (.obj { email := .jstr e, password := .jstr p }) =
        (.uerr .password_length, db)) ∧
    (¬(p.length < 6) → (∀ u ∈ db.users, u.email ≠ e) →
      env.saveErr = none →
      createUser env db
          (.obj { email := .jstr e, password := .jstr p }) =
        (.uok (getUser (newUserDoc env db e p .jundefined)),
         { users := db.users ++ [newUserDoc env db e p .jundefined],
           nextId := db.nextId + 1 })) := by
  refine ⟨fun r db2 h => ?_, fun hlen5 => ?_, fun hlen hnd hsv => ?_⟩
  · by_cases hp0 : p = ""
    · simp [createUser, he0, hp0] at h
    · by_cases hlen : p.length < 6
      · simp [createUser, he0, hp0, hie, hlen] at h
      · by_cases hany : (db.users.any fun w => w.email == e) = true
        · simp [createUser, he0, hp0, hie, hlen, hany] at h
        · cases hsv : env.saveErr with
          | some c =>
            by_cases hc : (c == 11000) = true
            · simp [createUser, he0, hp0, hie, hlen, hany, hsv, hc] at h
            · simp [createUser, he0, hp0, hie, hlen, hany, hsv, hc] at h
          | none =>
            simp [createUser, he0, hp0, hie, hlen, hany, hsv] at h
            exact ⟨h.2.symm, h.1.symm, rfl, rfl, rfl⟩
  · have hp0 : p ≠ "" := by
      intro hp
      rw [hp] at hlen5
      simp at hlen5
    have hlt : p.length < 6 := by omega
    simp [createUser, he0, hp0, hie, hlt]
  · have hp0 : p ≠ "" := by
      intro hp
      rw [hp] at hlen
      simp at hlen
    have hany : (db.users.any fun w => w.email == e) = false := by
      simp only [List.any_eq_false]
      intro u hu
      simp [hnd u hu]
    simp [createUser, he0, hp0, hie, hlen, hany, hsv]

/-- C8, witness: on the empty database, password "secre" (length 5) is
rejected and password "secret" (length 6) creates the account with
`agreement_approved = true`, `completed = false` and the hashed
password. -/
theorem createUser_password_boundary_witness :
    createUser envT dbEmpty
        (.obj { email := .jstr "a@b.com",
                password := .jstr "secre" }) =
      (.uerr .password_length, dbEmpty) ∧
    createUser envT dbEmpty
        (.obj { email := .jstr "a@b.com",
                password := .jstr "secret" }) =
      (.uok (getUser (newUserDoc envT dbEmpty "a@b.com" "secret" .jundefined)),
       { users := dbEmpty.users ++
           [newUserDoc envT dbEmpty "a@b.com" "secret" .jundefined],
         nextId := dbEmpty.nextId + 1 }) :=
  ⟨(createUser_password_boundary envT dbEmpty "a@b.com" "secre"
      (by decide) (by decide)).2.1 (by decide),
   (createUser_password_boundary envT dbEmpty "a@b.com" "secret"
      (by decide) (by decide)).2.2 (by decide)
      (by intro u hu; simp [dbEmpty] at hu) rfl⟩

/-- Agreement of two user documents on every field outside the set
{name, phone, city, town} that `updateUser` may touch. -/
def frameEq (u w : UserDoc) : Prop :=
  w.id = u.id ∧ w.email = u.email ∧ w.password = u.password ∧
  w.agreement_approved = u.agreement_approved ∧
  w.completed = u.completed ∧ w.country = u.country ∧
  w.gender = u.gender ∧ w.birth_year = u.birth_year ∧
  w.information = u.information ∧ w.paid_campaigns = u.paid_campaigns ∧
  w.campaigns = u.campaigns ∧ w.payment_number = u.payment_number ∧
  w.credit = u.credit ∧ w.waiting_credit = u.waiting_credit ∧
  w.overall_credit = u.overall_credit ∧ w.invitor = u.invitor ∧
  w.password_reset_code = u.password_reset_code ∧
  w.password_reset_last_date = u.password_reset_last_date

/-- `frameEq` is reflexive. -/
theorem frameEq_refl (u : UserDoc) : frameEq u u := by
  simp [frameEq]

/-- Mapping a pointwise frame-preserving function over a collection
relates it to the original, element by element. -/
theorem forall₂_frame_map (l : List UserDoc) (g : UserDoc → UserDoc)
    (hg : ∀ u, frameEq u (g u)) : List.Forall₂ frameEq l (l.map g) := by
  induction l with
  | nil => simp
  | cons a t ih => exact List.Forall₂.cons (hg a) ih

/-- C10, frame property of `updateUser`: every document of the
post-state agrees with the corresponding pre-state document on all
fields other than name, phone, city and town; the collection length and
the id counter never change; and on every error outcome the database is
entirely unchanged. -/
theorem updateUser_frame (env : Env) (db : DB) (id : JsValue)
    (arg : UpdateArg) :
    List.Forall₂ frameEq db.users (updateUser env db id arg).2.users ∧
    (updateUser env db id arg).2.nextId = db.nextId ∧
    (∀ er, (updateUser env db id arg).1 = .cerr er →
      (updateUser env db id arg).2 = db) := by
  rcases hU : updateUser env db id arg with ⟨res, db2⟩
  simp only [hU]
  unfold updateUser at hU
  have hself : List.Forall₂ frameEq db.users db.users :=
    List.forall₂_same.mpr (fun x _ => frameEq_refl x)
  split at hU
  · injection hU with h1 h2
    subst h1
    subst h2
    exact ⟨hself, rfl, fun er _ => rfl⟩
  · split at hU
    · injection hU with h1 h2
      subst h1
      subst h2
      exact ⟨hself, rfl, fun er _ => rfl⟩
    · rename_i user hfound
      split at hU
      · split at hU
        · injection hU with h1 h2
          subst h1
          subst h2
          exact ⟨hself, rfl, fun er _ => rfl⟩
        · split at hU
          · injection hU with h1 h2
            subst h1
            subst h2
            exact ⟨hself, rfl, fun er _ => rfl⟩
          · injection hU with h1 h2
            subst h1
            subst h2
            refine ⟨forall₂_frame_map _ _ (fun u => ?_), rfl,
              fun er her => by cases her⟩
            by_cases hid : (u.id == id.toJsString) = true
            · simp [hid, frameEq]
            · simp [hid, frameEq]
      · split at hU
        · injection hU with h1 h2
          subst h1
          subst h2
          exact ⟨hself, rfl, fun er _ => rfl⟩
        · injection hU with h1 h2
          subst h1
          subst h2
          refine ⟨forall₂_frame_map _ _ (fun u => ?_), rfl,
            fun er her => by cases her⟩
          by_cases hid : (u.id == id.toJsString) = true
          · simp [hid, frameEq]
          · simp [hid, frameEq]

/-- C10, witness: an error outcome (here the type-guard rejection of an
object payload) leaves the database unchanged. -/
theorem updateUser_frame_witness :
    (updateUser envT dbFresh (.jstr "1") (.uobj {})).2 = dbFresh :=
  (updateUser_frame envT dbFresh (.jstr "1") (.uobj {})).2.2
    .bad_request (by decide)

/-- On a duplicate-free database with a healthy persistence layer, a
well-formed `createUser` call appends exactly the new document and
returns its sanitized form. -/
theorem createUser_success (env : Env) (db : DB) (e p : String)
    (he0 : e ≠ "") (hp0 : p ≠ "") (hie : env.isEmail e = true)
    (hlen : ¬(p.length < 6)) (hnd : ∀ u ∈ db.users, u.email ≠ e)
    (hsv : env.saveErr = none) :
    createUser env db (.obj { email := .jstr e, password := .jstr p }) =
      (.uok (getUser (newUserDoc env db e p .jundefined)),
       { users := db.users ++ [newUserDoc env db e p .jundefined],
         nextId := db.nextId + 1 }) := by
  have hany : (db.users.any fun w => w.email == e) = false := by
    simp only [List.any_eq_false]
    intro u hu
    simp [hnd u hu]
  simp [createUser, he0, hp0, hie, hlen, hany, hsv]

/-- C9: `createUser` hashes the password exactly as supplied while
`findUser` trims it before verification.  Assuming verification succeeds
exactly on the plaintext that was hashed, the round trip create-then-find
with the identical email and password returns the sanitized user when
the password carries no surrounding whitespace, and
`password_verification` when it does. -/
theorem create_then_find_roundtrip
    (env : Env) (db : DB) (e p : String)
    (hvc : ∀ q, env.verify q (env.hash q) = true)
    (hvs : ∀ q r, env.verify q (env.hash r) = true → q = r)
    (he0 : e ≠ "") (hie : env.isEmail e = true) (het : jsTrim e = e)
    (hlen : ¬(p.length < 6))
    (hnd : ∀ u ∈ db.users, u.email ≠ e)
    (hsv : env.saveErr = none) :
    (jsTrim p = p →
      findUser env (createUser env db
          (.obj { email := .jstr e, password := .jstr p })).2 e p =
        (.uok (getUser (newUserDoc env db e p .jundefined)),
         (createUser env db
           (.obj { email := .jstr e, password := .jstr p })).2)) ∧
    (jsTrim p ≠ p →
      findUser env (createUser env db
          (.obj { email := .jstr e, password := .jstr p })).2 e p =
        (.uerr .password_verification,
         (createUser env db
           (.obj { email := .jstr e, password := .jstr p })).2)) := by
  have hp0 : p ≠ "" := by
    intro hp
    rw [hp] at hlen
    simp at hlen
  have hcr := createUser_success env db e p he0 hp0 hie hlen hnd hsv
  have hfind : dbFindByEmail
      { users := db.users ++ [newUserDoc env db e p .jundefined],
        nextId := db.nextId + 1 } (jsTrim e) =
      some (newUserDoc env db e p .jundefined) := by
    rw [het]
    exact dbFindByEmail_append db.users _ _ e hnd rfl
  constructor
  · intro htr
    have hv : env.verify (jsTrim p)
        (newUserDoc env db e p .jundefined).password = true := by
      rw [htr]
      exact hvc p
    have hgen : legacyGender (newUserDoc env db e p .jundefined).gender = false :=
      rfl
    rw [hcr]
    simp [findUser, he0, hp0, hie, hfind, hv, hgen]
  · intro htr
    have hv : env.verify (jsTrim p)
        (newUserDoc env db e p .jundefined).password = false := by
      cases hb : env.verify (jsTrim p) (env.hash p) with
      | true => exact absurd (hvs (jsTrim p) p hb) htr
      | false => exact hb
    rw [hcr]
    simp [findUser, he0, hp0, hie, hfind, hv]

/-- An environment whose hash is the identity and whose verification
compares for equality: verification succeeds exactly on the hashed
plaintext, as the round-trip claim assumes. -/
def envP : Env :=
  { envT with hash := fun s => s, verify := fun q h => h == q }

/-- C9, witness: with the whitespace-free password "secret" the round
trip returns the sanitized user; with the password " secret" it returns
`password_verification`. -/
theorem create_then_find_roundtrip_witness :
    findUser envP (createUser envP dbEmpty
        (.obj { email := .jstr "a@b.com",
                password := .jstr "secret" })).2 "a@b.com" "secret" =
      (.uok (getUser (newUserDoc envP dbEmpty "a@b.com" "secret" .jundefined)),
       (createUser envP dbEmpty
         (.obj { email := .jstr "a@b.com",
                 password := .jstr "secret" })).2) ∧
    findUser envP (createUser envP dbEmpty
        (.obj { email := .jstr "a@b.com",
                password := .jstr " secret" })).2 "a@b.com" " secret" =
      (.uerr .password_verification,
       (createUser envP dbEmpty
         (.obj { email := .jstr "a@b.com",
                 password := .jstr " secret" })).2) :=
  by
  have hvc : ∀ q, envP.verify q (envP.hash q) = true := by
    intro q
    simp [envP, envT]
  have hvs : ∀ q r, envP.verify q (envP.hash r) = true → q = r := by
    intro q r h
    have hrq : r = q := by simpa [envP, envT] using h
    exact hrq.symm
  have hnd : ∀ u ∈ dbEmpty.users, u.email ≠ "a@b.com" := by
    intro u hu
    simp [dbEmpty] at hu
  exact ⟨(create_then_find_roundtrip envP dbEmpty "a@b.com" "secret"
      hvc hvs (by decide) (by decide) (by decide) (by decide)
      hnd rfl).1 (by decide),
    (create_then_find_roundtrip envP dbEmpty "a@b.com" " secret"
      hvc hvs (by decide) (by decide) (by decide) (by decide)
      hnd rfl).2 (by decide)⟩

/-- C6: whenever `completeUser` reaches its callback, the outcome is
exactly the one prescribed by the ordered first-failure list of spec
section 4.4 (formalized by `completeUserSpecOrder`); in particular, with
every earlier check passing, an unresolvable country and a nonexistent
account together yield `bad_request`, not `document_not_found`. -/
theorem completeUser_first_failure_order
    (env : Env) (db : DB) (id : JsValue) :
    (∀ arg out, completeUser env db id arg = some out →
      out = completeUserSpecOrder env db id arg) ∧
    (∀ (d : CompleteData) (nm ph g : String) (yr : Int),
      id.truthy = true → env.isMongoId id.toJsString = true →
      d.name = .jstr nm → nm ≠ "" →
      d.phone = .jstr ph → ph ≠ "" →
      stripSpaces ph ≠ "" → env.isMobilePhone (stripSpaces ph) = true →
      d.gender = .jstr g → genderAllowed (.jstr g) = true →
      jsParseInt d.birth_year = some yr → 1920 ≤ yr → yr ≤ 2020 →
      env.getCountryWithAlpha2Code d.country = none →
      dbFindById db id.toJsString = none →
      completeUser env db id (.obj d) = some (.cerr .bad_request, db)) := by
  constructor
  · intro arg out h
    cases arg with
    | nonObj v =>
      simp [completeUser] at h
      simp [completeUserSpecOrder, ← h]
    | obj d =>
      cases hg1 : (!id.truthy || !env.isMongoId id.toJsString) with
      | true =>
        simp [completeUser, completeUserSpecOrder, hg1] at h ⊢
        exact h.symm
      | false =>
        cases hn : d.name with
        | jundefined =>
          simp [completeUser, completeUserSpecOrder, hg1, hn] at h ⊢
          exact h.symm
        | jnull =>
          simp [completeUser, completeUserSpecOrder, hg1, hn] at h ⊢
          exact h.symm
        | jbool b =>
          simp [completeUser, completeUserSpecOrder, hg1, hn] at h ⊢
          exact h.symm
        | jnum n =>
          simp [completeUser, completeUserSpecOrder, hg1, hn] at h ⊢
          exact h.symm
        | jstr nm =>
          by_cases hn0 : nm = ""
          · simp [completeUser, completeUserSpecOrder, hg1, hn, hn0] at h ⊢
            exact h.symm
          · cases hp : d.phone with
            | jundefined =>
              have hpt : JsValue.truthy .jundefined = false := rfl
              simp [completeUser, completeUserSpecOrder, hg1, hn, hn0, hp,
                hpt] at h ⊢
              exact h.symm
            | jnull =>
              have hpt : JsValue.truthy .jnull = false := rfl
              simp [completeUser, completeUserSpecOrder, hg1, hn, hn0, hp,
                hpt] at h ⊢
              exact h.symm
            | jbool b =>
              cases b with
              | false =>
                have hpt : JsValue.truthy (.jbool false) = false := rfl
                simp [completeUser, completeUserSpecOrder, hg1, hn, hn0, hp,
                  hpt] at h ⊢
                exact h.symm
              | true =>
                have hpt : JsValue.truthy (.jbool true) = true := rfl
                simp [completeUser, hg1, hn, hn0, hp, hpt] at h
            | jnum n =>
              by_cases hz : n = 0
              · have hpt : JsValue.truthy (.jnum n) = false := by
                  simp [JsValue.truthy, hz]
                simp [completeUser, completeUserSpecOrder, hg1, hn, hn0, hp,
                  hpt] at h ⊢
                exact h.symm
              · have hpt : JsValue.truthy (.jnum n) = true := by
                  simp [JsValue.truthy, hz]
                simp [completeUser, hg1, hn, hn0, hp, hpt] at h
            | jstr ph =>
              by_cases hp0 : ph = ""
              · have hpt : JsValue.truthy (.jstr ph) = false := by
                  simp [JsValue.truthy, hp0]
                simp [completeUser, completeUserSpecOrder, hg1, hn, hn0, hp,
                  hpt] at h ⊢
                exact h.symm
              · have hpt : (JsValue.jstr ph).truthy = true := by
                  simp [JsValue.truthy, hp0]
                cases hp1 : (stripSpaces ph == ""
                    || !env.isMobilePhone (stripSpaces ph)) with
                | true =>
                  simp [completeUser, completeUserSpecOrder, hg1, hn, hn0,
                    hp, hpt, hp1] at h ⊢
                  exact h.symm
                | false =>
                  cases hg2 : (!d.gender.truthy || !genderAllowed d.gender)
                      with
                  | true =>
                    simp [completeUser, completeUserSpecOrder, hg1, hn, hn0,
                      hp, hpt, hp1, hg2] at h ⊢
                    exact h.symm
                  | false =>
                    cases hb0 : d.birth_year.truthy with
                    | false =>
                      simp [completeUser, completeUserSpecOrder, hg1, hn,
                        hn0, hp, hpt, hp1, hg2, hb0] at h ⊢
                      exact h.symm
                    | true =>
                      cases hyp : jsParseInt d.birth_year with
                      | none =>
                        simp [completeUser, completeUserSpecOrder, hg1, hn,
                          hn0, hp, hpt, hp1, hg2, hb0, hyp] at h ⊢
                        exact h.symm
                      | some yr =>
                        by_cases hyl : yr < 1920
                        · simp [completeUser, completeUserSpecOrder, hg1,
                            hn, hn0, hp, hpt, hp1, hg2, hb0, hyp, hyl]
                            at h ⊢
                          exact h.symm
                        · by_cases hyh : yr > 2020
                          · simp [completeUser, completeUserSpecOrder, hg1,
                              hn, hn0, hp, hpt, hp1, hg2, hb0, hyp, hyl,
                              hyh] at h ⊢
                            exact h.symm
                          · cases hc : env.getCountryWithAlpha2Code
                                d.country with
                            | none =>
                              simp [completeUser, completeUserSpecOrder,
                                hg1, hn, hn0, hp, hpt, hp1, hg2, hb0, hyp,
                                hyl, hyh, hc] at h ⊢
                              exact h.symm
                            | some c =>
                              cases hu : dbFindById db id.toJsString with
                              | none =>
                                simp [completeUser, completeUserSpecOrder,
                                  hg1, hn, hn0, hp, hpt, hp1, hg2, hb0,
                                  hyp, hyl, hyh, hc, hu] at h ⊢
                                exact h.symm
                              | some u =>
                                cases hcm : u.completed with
                                | true =>
                                  simp [completeUser,
                                    completeUserSpecOrder, hg1, hn, hn0,
                                    hp, hpt, hp1, hg2, hb0, hyp, hyl, hyh,
                                    hc, hu, hcm] at h ⊢
                                  exact h.symm
                                | false =>
                                  cases hue : env.updateErr with
                                  | true =>
                                    simp [completeUser,
                                      completeUserSpecOrder, hg1, hn, hn0,
                                      hp, hpt, hp1, hg2, hb0, hyp, hyl,
                                      hyh, hc, hu, hcm, hue] at h ⊢
                                    exact h.symm
                                  | false =>
                                    simp [completeUser,
                                      completeUserSpecOrder, hg1, hn, hn0,
                                      hp, hpt, hp1, hg2, hb0, hyp, hyl,
                                      hyh, hc, hu, hcm, hue] at h ⊢
                                    exact h.symm
  · intro d nm ph g yr hid him hn hn0 hph hph0 hps hpm hg hga hyr hyr1
      hyr2 hcn hun
    have hg0 : g ≠ "" := by
      simp only [genderAllowed, allowedGenderValues] at hga
      rcases (by simpa using hga : g = "male" ∨ g = "female" ∨ g = "other"
          ∨ g = "not_specified") with hx | hx | hx | hx <;> simp [hx]
    have hyt : d.birth_year.truthy = true :=
      jsParseInt_truthy d.birth_year yr hyr (by omega)
    have hpt : (JsValue.jstr ph).truthy = true := by
      simp [JsValue.truthy, hph0]
    have hgtr : (JsValue.jstr g).truthy = true := by
      simp [JsValue.truthy, hg0]
    have hnr : ¬(yr < 1920) := by omega
    have hgt : ¬(yr > 2020) := by omega
    simp [completeUser, hid, him, hn, hn0, hph, hpt, hps, hpm, hg, hgtr,
      hga, hyt, hyr, hnr, hgt, hcn]

/-- The concrete environment with an unresolvable country service. -/
def envN : Env :=
  { envT with getCountryWithAlpha2Code := fun _ => none }

/-- C6, witness: the refinement instantiated on the completed account
(the call reports `already_authenticated`, matching the spec order), and
the masking instance: with an unresolvable country and a nonexistent
account, `completeUser` reports `bad_request`. -/
theorem completeUser_first_failure_order_witness :
    ((COut.cerr .already_authenticated, dbDone) =
      completeUserSpecOrder envT dbDone (.jstr "1")
        (.obj { name := .jstr "A", phone := .jstr "5551234567",
                gender := .jstr "male", birth_year := .jnum 1995,
                country := .jstr "US" })) ∧
    completeUser envN dbEmpty (.jstr "1")
        (.obj { name := .jstr "A", phone := .jstr "5551234567",
                gender := .jstr "male", birth_year := .jnum 1995,
                country := .jstr "US" }) =
      some (.cerr .bad_request, dbEmpty) :=
  ⟨(completeUser_first_failure_order envT dbDone (.jstr "1")).1
      (.obj { name := .jstr "A", phone := .jstr "5551234567",
              gender := .jstr "male", birth_year := .jnum 1995,
              country := .jstr "US" })
      (.cerr .already_authenticated, dbDone) (by decide),
   (completeUser_first_failure_order envN dbEmpty (.jstr "1")).2
      { name := .jstr "A", phone := .jstr "5551234567",
        gender := .jstr "male", birth_year := .jnum 1995,
        country := .jstr "US" }
      "A" "5551234567" "male" 1995
      (by decide) (by decide) rfl (by decide) rfl (by decide) (by decide)
      (by decide) rfl (by decide) rfl (by decide) (by decide) rfl rfl⟩

end UsersMagic
